import Mathlib

/-!
Verification of the struct-input adapter of the builder-macro core
(src/bon-macros/src/builder/builder_gen/input_struct.rs), over a shallow
embedding of the relevant syn-AST fragment and of the adapter functions.
-/

namespace BonDemo

/-! ### The syn-AST fragment used by the adapter

Types and generic arguments are merged into one inductive: constructor
`selfTy` is the self-referential type token `Self`, `path` is a (possibly
generic) type path such as `Sut<\x7bargs\x7d>`, `ref` is a reference type
with an optional lifetime, `array` is an array type `[T; len]`, and
`lifetimeArg` / `constArg` are the argument forms a lifetime or const
generic parameter turns into when the type is fully applied. -/

inductive Ty : Type where
  | selfTy : Ty
  | path : String → List Ty → Ty
  | ref : Option String → Ty → Ty
  | array : Ty → String → Ty
  | lifetimeArg : String → Ty
  | constArg : String → Ty
deriving Repr

/-- A generic parameter declaration: lifetime (with lifetime bounds), type
(with trait-bound types, which may mention `Self`), or const (with its
declared type). -/
inductive GenericParam : Type where
  | lifetime : String → List String → GenericParam
  | type : String → List Ty → GenericParam
  | const : String → Ty → GenericParam
deriving Repr

/-- One predicate of a where-clause: a type together with its bounds. -/
structure WherePred where
  ty : Ty
  bounds : List Ty
deriving Repr

/-- The generics attached to a declaration in the syn AST: the ordered
parameter list and the optional where-clause. -/
structure SynGenerics where
  params : List GenericParam
  where_clause : Option (List WherePred)
deriving Repr

/-- An attribute on an item or a field; `path` is the attribute's path
(e.g. "builder", "derive", "doc") and `value` its payload rendered as a
string. -/
structure Attr where
  path : String
  value : String
deriving Repr, DecidableEq

/-- Visibility of an item. -/
inductive Vis : Type where
  | pub : Vis
  | inherited : Vis
  | restricted : String → Vis
deriving Repr, DecidableEq

/-- One field of a struct in the syn AST. `ident` is `none` for a field of
a tuple struct. `span` stands for the source span syn attaches to the
field. -/
structure SynField where
  attrs : List Attr
  ident : Option String
  ty : Ty
  span : Nat
deriving Repr

/-- The fields of a struct: named fields, unnamed (tuple) fields, or a
unit struct. -/
inductive SynFields : Type where
  | named : List SynField → SynFields
  | unnamed : List SynField → SynFields
  | unit : SynFields
deriving Repr

/-- A struct item in the syn AST. -/
structure ItemStruct where
  attrs : List Attr
  vis : Vis
  ident : String
  generics : SynGenerics
  fields : SynFields
  span : Nat
deriving Repr

/-- A span-carrying diagnostic, as produced by the error macros. -/
structure Diagnostic where
  span : Nat
  msg : String
deriving Repr, DecidableEq

/-! ### NormalizeSelfTy

The visitor `crate::normalization::NormalizeSelfTy \x7b self_ty \x7d`
replaces every occurrence of the `Self` type token by `self_ty`; applied
to a whole struct it rewrites field types, generic-parameter bounds and
the where-clause. -/

mutual

def Ty.substSelf (s : Ty) : Ty → Ty
  | .selfTy => s
  | .path n args => .path n (Ty.substSelfList s args)
  | .ref lt inner => .ref lt (Ty.substSelf s inner)
  | .array elem len => .array (Ty.substSelf s elem) len
  | .lifetimeArg n => .lifetimeArg n
  | .constArg n => .constArg n

def Ty.substSelfList (s : Ty) : List Ty → List Ty
  | [] => []
  | t :: ts => Ty.substSelf s t :: Ty.substSelfList s ts

end

def GenericParam.substSelf (s : Ty) : GenericParam → GenericParam
  | .lifetime n bs => .lifetime n bs
  | .type n bs => .type n (bs.map (Ty.substSelf s))
  | .const n ty => .const n (Ty.substSelf s ty)

def WherePred.substSelf (s : Ty) (p : WherePred) : WherePred :=
  { ty := Ty.substSelf s p.ty, bounds := p.bounds.map (Ty.substSelf s) }

def SynGenerics.substSelf (s : Ty) (g : SynGenerics) : SynGenerics :=
  { params := g.params.map (GenericParam.substSelf s)
    where_clause := g.where_clause.map (fun ps => ps.map (WherePred.substSelf s)) }

def SynField.substSelf (s : Ty) (f : SynField) : SynField :=
  { f with ty := Ty.substSelf s f.ty }

def SynFields.substSelf (s : Ty) : SynFields → SynFields
  | .named fs => .named (fs.map (SynField.substSelf s))
  | .unnamed fs => .unnamed (fs.map (SynField.substSelf s))
  | .unit => .unit

/-- The `visit_item_struct_mut` pass of `NormalizeSelfTy`: rewrite every
`Self` occurrence in the struct to the given type. -/
def normalizeSelfTyStruct (s : Ty) (item : ItemStruct) : ItemStruct :=
  { item with
    generics := item.generics.substSelf s
    fields := item.fields.substSelf s }

/-! ### Self-occurrence predicates, used to state that normalized output
has no dangling self-reference. -/

mutual

def Ty.containsSelf : Ty → Bool
  | .selfTy => true
  | .path _ args => Ty.containsSelfList args
  | .ref _ inner => Ty.containsSelf inner
  | .array elem _ => Ty.containsSelf elem
  | .lifetimeArg _ => false
  | .constArg _ => false

def Ty.containsSelfList : List Ty → Bool
  | [] => false
  | t :: ts => Ty.containsSelf t || Ty.containsSelfList ts

end

def GenericParam.containsSelf : GenericParam → Bool
  | .lifetime _ _ => false
  | .type _ bs => bs.any Ty.containsSelf
  | .const _ ty => ty.containsSelf

def SynGenerics.containsSelf (g : SynGenerics) : Bool :=
  g.params.any GenericParam.containsSelf ||
    (g.where_clause.getD []).any
      (fun p => p.ty.containsSelf || p.bounds.any Ty.containsSelf)

/-! ### The builder-generation data model
(crate::builder::builder_gen types, as used by this adapter). -/

/-- The normalized description of one member set through the builder. -/
structure Field where
  attrs : List Attr
  ident : String
  ty : Ty
deriving Repr

/-- The generics captured into the builder-generation context. -/
structure Generics where
  params : List GenericParam
  where_clause : Option (List WherePred)
deriving Repr

/-- The body emitter used by the struct shape: emits a struct literal for
the given struct name (the only FinishFuncBody implementor in this file). -/
structure StructLiteralBody where
  struct_ident : String
deriving Repr, DecidableEq

/-- Descriptor of the generated finishing method. -/
structure FinishFunc where
  ident : String
  unsafety : Option Unit
  asyncness : Option Unit
  body : StructLiteralBody
  output : Ty
deriving Repr

/-- Descriptor of the generated start method. -/
structure StartFunc where
  ident : String
  vis : Option Vis
  attrs : List Attr
  generics : Option SynGenerics
deriving Repr

/-- Descriptor of the receiver of the original callable (struct inputs
have none). -/
structure Receiver where
  byRef : Bool
deriving Repr, DecidableEq

/-- The assembled builder-generation context. -/
structure BuilderGenCtx where
  fields : List Field
  builder_ident : String
  builder_private_impl_ident : String
  builder_state_trait_ident : String
  receiver : Option Receiver
  generics : Generics
  vis : Vis
  start_func : StartFunc
  finish_func : FinishFunc
deriving Repr

/-! ### Configuration parameters (crate::builder::params). -/

/-- Declaration-level builder parameters. -/
structure BuilderParams where
  builder_type : Option String
  finish_fn : Option String
deriving Repr, DecidableEq

/-- Name/visibility override pair for a generated item. -/
structure ItemParams where
  name : Option String
  vis : Option Vis
deriving Repr, DecidableEq

instance : Inhabited ItemParams := ⟨⟨none, none⟩⟩

/-- The parameters accepted by the struct input shape. -/
structure StructInputParams where
  base : BuilderParams
  start_fn : Option ItemParams
deriving Repr, DecidableEq

/-! ### The struct-input adapter (input_struct.rs). -/

/-- Modelled from the spec: `super::generic_param_to_arg` (declared in the
sibling builder_gen module, not under src/) turns one generic parameter
declaration into the corresponding applied generic argument, so that the
fully-applied type expression lists all of the struct's generic parameters
in declaration order. -/
def generic_param_to_arg : GenericParam → Ty
  | .lifetime n _ => .lifetimeArg n
  | .type n _ => .path n []
  | .const n _ => .constArg n

/-- The struct-input context assembled by `StructInputCtx::new`. -/
structure StructInputCtx where
  orig_struct : ItemStruct
  norm_struct : ItemStruct
  params : StructInputParams
  struct_ty : Ty
deriving Repr

/-- Embedding of `StructInputCtx::new`: build the fully-applied struct
type from all generic parameters in order, then rewrite every `Self` in a
clone of the struct to that type. -/
def StructInputCtx.new (params : StructInputParams) (orig_struct : ItemStruct) :
    StructInputCtx :=
  let generic_args := orig_struct.generics.params.map generic_param_to_arg
  let struct_ty := Ty.path orig_struct.ident generic_args
  let norm_struct := normalizeSelfTyStruct struct_ty orig_struct
  { orig_struct := orig_struct
    norm_struct := norm_struct
    params := params
    struct_ty := struct_ty }

/-- Embedding of `StructInputCtx::builder_ident`. -/
def StructInputCtx.builder_ident (self : StructInputCtx) : String :=
  match self.params.base.builder_type with
  | some builder_type => builder_type
  | none => self.norm_struct.ident ++ "Builder"

/-- Embedding of `StructInputCtx::adapted_struct`: the original struct
with every attribute whose path is `builder` removed. -/
def StructInputCtx.adapted_struct (self : StructInputCtx) : ItemStruct :=
  let orig := self.orig_struct
  { orig with attrs := orig.attrs.filter (fun attr => !(attr.path == "builder")) }

/-- Modelled from the spec: `Field::new` (declared in the sibling
builder_gen module, not under src/) constructs the normalized Field from
the member's attributes, identifier and declared type. -/
def Field.new (attrs : List Attr) (ident : String) (ty : Ty) :
    Except Diagnostic Field :=
  .ok { attrs := attrs, ident := ident, ty := ty }

/-- Embedding of `Field::from_syn_field`. -/
def Field.from_syn_field (field : SynField) : Except Diagnostic Field :=
  match field.ident with
  | none =>
    .error { span := field.span
             msg := "Only structs with named fields are supported. Please name all fields of the struct" }
  | some ident => Field.new field.attrs ident field.ty

/-- Embedding of itertools' `try_collect` over an iterator of fallible
conversions: collect in order, stopping at the first error. -/
def try_collect (f : SynField → Except Diagnostic Field) :
    List SynField → Except Diagnostic (List Field)
  | [] => .ok []
  | x :: xs =>
    match f x with
    | .error e => .error e
    | .ok y =>
      match try_collect f xs with
      | .error e => .error e
      | .ok ys => .ok (y :: ys)

/-- Embedding of `StructInputCtx::into_builder_gen_ctx`: derive the three
builder-side identifiers, bail on non-named fields (with the struct's
span), convert every field fail-fast via `try_collect`, then assemble the
context. The fallible steps are written as explicit matches on the
`Result` values. -/
def StructInputCtx.into_builder_gen_ctx (self : StructInputCtx) :
    Except Diagnostic BuilderGenCtx :=
  let builder_ident := self.builder_ident
  let builder_private_impl_ident := "__" ++ builder_ident ++ "PrivateImpl"
  let builder_state_trait_ident := "__" ++ builder_ident ++ "State"
  match self.norm_struct.fields with
  | .named namedFields =>
    match try_collect Field.from_syn_field namedFields with
    | .error e => .error e
    | .ok fields =>
      let generics : Generics :=
        { params := self.norm_struct.generics.params
          where_clause := self.norm_struct.generics.where_clause }
      let finish_func_body : StructLiteralBody :=
        { struct_ident := self.norm_struct.ident }
      let start_fn := self.params.start_fn.getD default
      let start_func_ident := start_fn.name.getD "builder"
      let start_func_vis := start_fn.vis
      let finish_func_ident := self.params.base.finish_fn.getD "build"
      let finish_func : FinishFunc :=
        { ident := finish_func_ident
          unsafety := none
          asyncness := none
          body := finish_func_body
          output := self.struct_ty }
      let start_func_docs :=
        "Use builder syntax to create an instance of [`" ++ self.norm_struct.ident ++ "`]"
      let start_func : StartFunc :=
        { ident := start_func_ident
          vis := start_func_vis
          attrs := [{ path := "doc", value := start_func_docs }]
          generics := none }
      .ok
        { fields := fields
          builder_ident := builder_ident
          builder_private_impl_ident := builder_private_impl_ident
          builder_state_trait_ident := builder_state_trait_ident
          receiver := none
          generics := generics
          vis := self.norm_struct.vis
          start_func := start_func
          finish_func := finish_func }
  | _ =>
    .error { span := self.norm_struct.span
             msg := "Only structs with named fields are supported" }

/-! ### StructLiteralBody::gen

The finish-method body emitter for the struct shape produces a token
stream; tokens are modelled as idents and punctuation, and a member's
resolved expression (`FieldExpr.expr`, a token stream in the source) is a
token list. -/

/-- One token of an emitted token stream. -/
inductive Tok : Type where
  | ident : String → Tok
  | punct : Char → Tok
deriving Repr, DecidableEq

/-- A field together with the expression the builder resolved for it. -/
structure FieldExpr where
  field : Field
  expr : List Tok
deriving Repr

/-- Embedding of `StructLiteralBody::gen` (the `quote!` expansion): the
struct ident, an opening brace, then for each field-expression pair the
field ident, a colon, the expression tokens and a trailing comma, then the
closing brace. -/
def StructLiteralBody.gen (self : StructLiteralBody) (field_exprs : List FieldExpr) :
    List Tok :=
  let entries := field_exprs.map (fun fe =>
    [Tok.ident fe.field.ident, Tok.punct ':'] ++ fe.expr ++ [Tok.punct ','])
  [Tok.ident self.struct_ident, Tok.punct '{'] ++ entries.flatten ++ [Tok.punct '}']

/-- Stated from the spec's words, for comparison with the source-derived
`StructLiteralBody.gen`: the struct literal `Name { i_1: e_1, ..., i_k: e_k }`
obtained by zipping each identifier with its expression, one entry per
pair, in the order of the input list. -/
def structLiteralOfPairs (name : String) (pairs : List (String × List Tok)) :
    List Tok :=
  [Tok.ident name, Tok.punct '{'] ++
    (pairs.map (fun p => [Tok.ident p.1, Tok.punct ':'] ++ p.2 ++ [Tok.punct ','])).flatten ++
    [Tok.punct '}']

/-! ### The generated builder's runtime semantics

The emission engine (`BuilderGenCtx` methods) is not among the source
files; the builder produced for a named-fields struct is therefore
modelled from the spec. -/

/-- Modelled from the spec: the builder's internal storage "holds, for
every field, either the resolved value or an absence marker". A struct
with `n` fields whose values live in `V` is represented extensionally as
the function from field positions to values. -/
structure BuilderState (n : Nat) (V : Type) where
  slots : Fin n → Option V

/-- Modelled from the spec: the start method returns "the builder's
initial state (all markers absent)". -/
def BuilderState.start (n : Nat) (V : Type) : BuilderState n V :=
  { slots := fun _ => none }

/-- Modelled from the spec: a setter moves the builder to a state where
the given field's value is present, "returning a new builder value with an
updated marker". -/
def BuilderState.set (b : BuilderState n V) (i : Fin n) (v : V) : BuilderState n V :=
  { slots := fun j => if j = i then some v else b.slots j }

/-- Modelled from the spec: the finishing method is callable only once
every field's marker indicates presence, and then constructs the target
value from the stored field values; an incomplete builder has no finish
(`none`), mirroring the compile-time rejection. -/
def BuilderState.finish (b : BuilderState n V) : Option (Fin n → V) :=
  if h : ∀ i, (b.slots i).isSome then
    some (fun i => (b.slots i).get (h i))
  else
    none

/-- Running a chain of setter calls, in the order given by the list, on a
builder state. -/
def BuilderState.runSetters (b : BuilderState n V) (calls : List (Fin n × V)) :
    BuilderState n V :=
  calls.foldl (fun acc c => acc.set c.1 c.2) b

/-! #### The concrete scenario struct
`Sut<'a,'b,T,U,const N: usize> \x7b a: &'a str, b: &'b str, c: T, d: U, e: [u8; N] \x7d`,
with lifetimes erased, `str` as `String` and `[u8; N]` as a length-`N`
list of bytes (bytes as `Nat`). -/

structure Sut (T U : Type) (N : Nat) where
  a : String
  b : String
  c : T
  d : U
  e : List Nat
deriving Repr

/-- Modelled from the spec: the typestate builder generated for `Sut`.
Each field has one type-level slot; `Unit` in a slot position means the
field is still unset, and the field's value type means it was set. -/
structure SutBuilder (T U : Type) (N : Nat) (Sa Sb Sc Sd Se : Type) where
  a : Sa
  b : Sb
  c : Sc
  d : Sd
  e : Se

/-- Modelled from the spec: the start method `Sut::builder()`, all markers
absent. -/
def Sut.builder (T U : Type) (N : Nat) :
    SutBuilder T U N Unit Unit Unit Unit Unit :=
  { a := (), b := (), c := (), d := (), e := () }

/-- Modelled from the spec: the setter for field `a`. -/
def SutBuilder.setA (bld : SutBuilder T U N Unit Sb Sc Sd Se) (v : String) :
    SutBuilder T U N String Sb Sc Sd Se :=
  { a := v, b := bld.b, c := bld.c, d := bld.d, e := bld.e }

/-- Modelled from the spec: the setter for field `b`. -/
def SutBuilder.setB (bld : SutBuilder T U N Sa Unit Sc Sd Se) (v : String) :
    SutBuilder T U N Sa String Sc Sd Se :=
  { a := bld.a, b := v, c := bld.c, d := bld.d, e := bld.e }

/-- Modelled from the spec: the setter for field `c`. -/
def SutBuilder.setC (bld : SutBuilder T U N Sa Sb Unit Sd Se) (v : T) :
    SutBuilder T U N Sa Sb T Sd Se :=
  { a := bld.a, b := bld.b, c := v, d := bld.d, e := bld.e }

/-- Modelled from the spec: the setter for field `d`. -/
def SutBuilder.setD (bld : SutBuilder T U N Sa Sb Sc Unit Se) (v : U) :
    SutBuilder T U N Sa Sb Sc U Se :=
  { a := bld.a, b := bld.b, c := bld.c, d := v, e := bld.e }

/-- Modelled from the spec: the setter for field `e`. -/
def SutBuilder.setE (bld : SutBuilder T U N Sa Sb Sc Sd Unit) (v : List Nat) :
    SutBuilder T U N Sa Sb Sc Sd (List Nat) :=
  { a := bld.a, b := bld.b, c := bld.c, d := bld.d, e := v }

/-- Modelled from the spec: the finishing method `build()`, callable only
in the fully-set typestate. -/
def SutBuilder.build (bld : SutBuilder T U N String String T U (List Nat)) :
    Sut T U N :=
  { a := bld.a, b := bld.b, c := bld.c, d := bld.d, e := bld.e }

/-! ### Auxiliary observers and concrete inputs used in the statements. -/

/-- The kind of a generic parameter (lifetime, type or const). -/
inductive GpKind : Type where
  | lifetime : GpKind
  | type : GpKind
  | const : GpKind
deriving Repr, DecidableEq

/-- The declared name of a generic parameter. -/
def GenericParam.name : GenericParam → String
  | .lifetime n _ => n
  | .type n _ => n
  | .const n _ => n

/-- The kind of a generic parameter. -/
def GenericParam.kind : GenericParam → GpKind
  | .lifetime _ _ => .lifetime
  | .type _ _ => .type
  | .const _ _ => .const

/-- The error a fallible field conversion produces on one input, when it
errors. -/
def errOf (f : SynField → Except Diagnostic Field) (x : SynField) :
    Option Diagnostic :=
  match f x with
  | .error e => some e
  | .ok _ => none

/-- Whether a captured Generics structure still mentions the `Self` type
token anywhere (in a parameter's bounds or in the where-clause). -/
def Generics.containsSelf (g : Generics) : Bool :=
  g.params.any GenericParam.containsSelf ||
    (g.where_clause.getD []).any
      (fun p => p.ty.containsSelf || p.bounds.any Ty.containsSelf)

instance : Inhabited BuilderGenCtx :=
  ⟨{ fields := []
     builder_ident := ""
     builder_private_impl_ident := ""
     builder_state_trait_ident := ""
     receiver := none
     generics := { params := [], where_clause := none }
     vis := .inherited
     start_func := { ident := "", vis := none, attrs := [], generics := none }
     finish_func :=
       { ident := "", unsafety := none, asyncness := none
         body := { struct_ident := "" }, output := Ty.path "" [] } }⟩

/-- Default (all-absent) macro parameters, used in concrete runs. -/
def exParams : StructInputParams :=
  { base := { builder_type := none, finish_fn := none }, start_fn := none }

/-- A concrete named-fields struct with all three generic parameter kinds
and `Self` occurrences in a field type, a trait bound and the
where-clause. -/
def exSelfStruct : ItemStruct :=
  { attrs := [{ path := "builder", value := "" }, { path := "derive", value := "Debug" }]
    vis := .pub
    ident := "Node"
    generics :=
      { params :=
          [.lifetime "a" []
           , .type "T" [Ty.path "Into" [Ty.selfTy]]
           , .const "N" (Ty.path "usize" [])]
        where_clause :=
          some [{ ty := Ty.path "T" []
                  bounds := [Ty.path "PartialEq" [Ty.selfTy]] }] }
    fields := .named
      [{ attrs := [], ident := some "next"
         ty := Ty.ref (some "a") Ty.selfTy, span := 10 }
       , { attrs := [], ident := some "value", ty := Ty.path "T" [], span := 11 }]
    span := 1 }

/-- The context built from `exSelfStruct` with default parameters. -/
def exCtx : StructInputCtx := StructInputCtx.new exParams exSelfStruct

/-- The named field list of the normalized `exSelfStruct`. -/
def exNormFields : List SynField :=
  match exCtx.norm_struct.fields with
  | .named fs => fs
  | _ => []

/-- The builder-generation context produced for `exSelfStruct`. -/
def exGenCtx : BuilderGenCtx :=
  (exCtx.into_builder_gen_ctx.toOption).getD default

/-- A concrete unit struct (no fields). -/
def exUnitStruct : ItemStruct :=
  { attrs := []
    vis := .inherited
    ident := "Marker"
    generics := { params := [], where_clause := none }
    fields := .unit
    span := 5 }

/-- A concrete field with no identifier, as in a tuple struct. -/
def exNoIdentField : SynField :=
  { attrs := [], ident := none, ty := Ty.path "u32" [], span := 7 }

/-- A concrete named field. -/
def exGoodField : SynField :=
  { attrs := [], ident := some "x", ty := Ty.path "u32" [], span := 8 }

/-- A second concrete field with no identifier. -/
def exNoIdentField2 : SynField :=
  { attrs := [], ident := none, ty := Ty.path "bool" [], span := 9 }

/-- A struct whose (nominally named) field list contains members without
identifiers, to exercise the fail-fast conversion path. -/
def exBadStruct : ItemStruct :=
  { attrs := []
    vis := .inherited
    ident := "Bad"
    generics := { params := [], where_clause := none }
    fields := .named [exGoodField, exNoIdentField, exNoIdentField2]
    span := 3 }

/-- The context built from `exBadStruct` with default parameters. -/
def exBadCtx : StructInputCtx := StructInputCtx.new exParams exBadStruct

/-- The named field list of the normalized `exBadStruct`. -/
def exBadFields : List SynField :=
  match exBadCtx.norm_struct.fields with
  | .named fs => fs
  | _ => []

/-! ### Helper lemmas. -/

mutual

theorem Ty.substSelf_noSelf (s : Ty) (hs : s.containsSelf = false) :
    (t : Ty) → (Ty.substSelf s t).containsSelf = false
  | .selfTy => by simpa [Ty.substSelf] using hs
  | .path n args => by
      simpa [Ty.substSelf, Ty.containsSelf] using Ty.substSelfList_noSelf s hs args
  | .ref lt inner => by
      simpa [Ty.substSelf, Ty.containsSelf] using Ty.substSelf_noSelf s hs inner
  | .array elem len => by
      simpa [Ty.substSelf, Ty.containsSelf] using Ty.substSelf_noSelf s hs elem
  | .lifetimeArg n => by simp [Ty.substSelf, Ty.containsSelf]
  | .constArg n => by simp [Ty.substSelf, Ty.containsSelf]

theorem Ty.substSelfList_noSelf (s : Ty) (hs : s.containsSelf = false) :
    (ts : List Ty) → Ty.containsSelfList (Ty.substSelfList s ts) = false
  | [] => by simp [Ty.substSelfList, Ty.containsSelfList]
  | t :: ts => by
      simp [Ty.substSelfList, Ty.containsSelfList,
        Ty.substSelf_noSelf s hs t, Ty.substSelfList_noSelf s hs ts]

end

theorem generic_param_to_arg_noSelf (p : GenericParam) :
    (generic_param_to_arg p).containsSelf = false := by
  cases p <;> simp [generic_param_to_arg, Ty.containsSelf, Ty.containsSelfList]

theorem Ty.containsSelfList_eq_any (ts : List Ty) :
    Ty.containsSelfList ts = ts.any Ty.containsSelf := by
  induction ts with
  | nil => simp [Ty.containsSelfList]
  | cons t ts ih => simp [Ty.containsSelfList, ih]

theorem struct_ty_noSelf (params : StructInputParams) (orig : ItemStruct) :
    (StructInputCtx.new params orig).struct_ty.containsSelf = false := by
  show (Ty.path orig.ident (orig.generics.params.map generic_param_to_arg)).containsSelf
    = false
  simp [Ty.containsSelf, Ty.containsSelfList_eq_any, List.any_map]
  intro p _
  exact generic_param_to_arg_noSelf p

theorem GenericParam.substSelf_name (s : Ty) (p : GenericParam) :
    (p.substSelf s).name = p.name := by
  cases p <;> rfl

theorem GenericParam.substSelf_kind (s : Ty) (p : GenericParam) :
    (p.substSelf s).kind = p.kind := by
  cases p <;> rfl

theorem GenericParam.substSelf_param_noSelf (s : Ty) (hs : s.containsSelf = false)
    (p : GenericParam) : (p.substSelf s).containsSelf = false := by
  cases p with
  | lifetime n bs => simp [GenericParam.substSelf, GenericParam.containsSelf]
  | type n bs =>
    simp [GenericParam.substSelf, GenericParam.containsSelf]
    intro t _
    exact Ty.substSelf_noSelf s hs t
  | const n ty =>
    simpa [GenericParam.substSelf, GenericParam.containsSelf]
      using Ty.substSelf_noSelf s hs ty

theorem try_collect_ok_iff (f : SynField → Except Diagnostic Field)
    (l : List SynField) (ys : List Field) :
    try_collect f l = .ok ys ↔ List.Forall₂ (fun x y => f x = .ok y) l ys := by
  induction l generalizing ys with
  | nil =>
    constructor
    · intro h
      cases ys with
      | nil => exact List.Forall₂.nil
      | cons y ys => simp [try_collect] at h
    · intro h
      cases h
      rfl
  | cons x xs ih =>
    constructor
    · intro h
      cases hx : f x with
      | error e => simp [try_collect, hx] at h
      | ok y =>
        cases hxs : try_collect f xs with
        | error e => simp [try_collect, hx, hxs] at h
        | ok zs =>
          simp [try_collect, hx, hxs] at h
          subst h
          exact List.Forall₂.cons hx ((ih zs).1 hxs)
    · intro h
      cases h with
      | cons hx hxs =>
        simp [try_collect, hx, (ih _).2 hxs]

theorem try_collect_error_iff (f : SynField → Except Diagnostic Field)
    (l : List SynField) (e : Diagnostic) :
    try_collect f l = .error e ↔ l.findSome? (errOf f) = some e := by
  induction l with
  | nil => simp [try_collect]
  | cons x xs ih =>
    cases hx : f x with
    | error e2 =>
      simp [try_collect, hx, List.findSome?_cons, errOf]
    | ok y =>
      cases hxs : try_collect f xs with
      | error e2 =>
        simp [try_collect, hx, hxs, List.findSome?_cons, errOf]
        simpa [hxs] using ih
      | ok ys =>
        simp [try_collect, hx, hxs, List.findSome?_cons, errOf]
        simpa [hxs] using ih

theorem WherePred.substSelf_pred_noSelf (s : Ty) (hs : s.containsSelf = false)
    (p : WherePred) :
    (p.substSelf s).ty.containsSelf = false ∧
      ∀ t ∈ (p.substSelf s).bounds, t.containsSelf = false := by
  constructor
  · exact Ty.substSelf_noSelf s hs p.ty
  · intro t ht
    obtain ⟨u, _, rfl⟩ := List.mem_map.1 ht
    exact Ty.substSelf_noSelf s hs u

theorem from_syn_field_ok_spec (x : SynField) (y : Field)
    (h : Field.from_syn_field x = .ok y) :
    x.ident = some y.ident ∧ y.ty = x.ty ∧ y.attrs = x.attrs := by
  cases hx : x.ident with
  | none => simp [Field.from_syn_field, hx] at h
  | some id =>
    simp [Field.from_syn_field, hx, Field.new] at h
    subst h
    exact ⟨rfl, rfl, rfl⟩

theorem try_collect_ok_mem (f : SynField → Except Diagnostic Field)
    (l : List SynField) (ys : List Field) (h : try_collect f l = .ok ys) :
    ∀ y ∈ ys, ∃ x ∈ l, f x = .ok y := by
  have h2 := (try_collect_ok_iff f l ys).1 h
  clear h
  induction h2 with
  | nil => intro y hy; simp at hy
  | cons hx htl ih =>
    intro y hy
    rcases List.mem_cons.1 hy with rfl | hy2
    · exact ⟨_, List.mem_cons_self _ _, hx⟩
    · obtain ⟨x, hx2, hfx⟩ := ih y hy2
      exact ⟨x, List.mem_cons_of_mem _ hx2, hfx⟩

theorem try_collect_ok_mem_left (f : SynField → Except Diagnostic Field)
    (l : List SynField) (ys : List Field) (h : try_collect f l = .ok ys) :
    ∀ x ∈ l, ∃ y, f x = .ok y := by
  have h2 := (try_collect_ok_iff f l ys).1 h
  clear h
  induction h2 with
  | nil => intro x hx; simp at hx
  | cons hfx htl ih =>
    intro x hx
    rcases List.mem_cons.1 hx with rfl | hx2
    · exact ⟨_, hfx⟩
    · exact ih x hx2

theorem runSetters_map_slots {n : Nat} {V : Type} (v : Fin n → V)
    (order : List (Fin n)) (b : BuilderState n V) (i : Fin n) :
    (b.runSetters (order.map (fun j => (j, v j)))).slots i =
      if i ∈ order then some (v i) else b.slots i := by
  induction order generalizing b with
  | nil => simp [BuilderState.runSetters]
  | cons hd tl ih =>
    show ((b.set hd (v hd)).runSetters (tl.map (fun j => (j, v j)))).slots i = _
    rw [ih]
    by_cases hi : i ∈ tl
    · simp [hi]
    · by_cases hhd : i = hd
      · subst hhd
        simp [hi, BuilderState.set]
      · simp [hi, hhd, BuilderState.set, List.mem_cons]

theorem new_params (params : StructInputParams) (orig : ItemStruct) :
    (StructInputCtx.new params orig).params = params := rfl

theorem new_orig_struct (params : StructInputParams) (orig : ItemStruct) :
    (StructInputCtx.new params orig).orig_struct = orig := rfl

theorem new_struct_ty (params : StructInputParams) (orig : ItemStruct) :
    (StructInputCtx.new params orig).struct_ty =
      Ty.path orig.ident (orig.generics.params.map generic_param_to_arg) := rfl

theorem new_norm_ident (params : StructInputParams) (orig : ItemStruct) :
    (StructInputCtx.new params orig).norm_struct.ident = orig.ident := rfl

theorem new_norm_span (params : StructInputParams) (orig : ItemStruct) :
    (StructInputCtx.new params orig).norm_struct.span = orig.span := rfl

theorem new_norm_vis (params : StructInputParams) (orig : ItemStruct) :
    (StructInputCtx.new params orig).norm_struct.vis = orig.vis := rfl

theorem new_norm_generics (params : StructInputParams) (orig : ItemStruct) :
    (StructInputCtx.new params orig).norm_struct.generics =
      orig.generics.substSelf (StructInputCtx.new params orig).struct_ty := rfl

theorem new_norm_fields (params : StructInputParams) (orig : ItemStruct) :
    (StructInputCtx.new params orig).norm_struct.fields =
      orig.fields.substSelf (StructInputCtx.new params orig).struct_ty := rfl

theorem into_builder_gen_ctx_ok_elim (self : StructInputCtx) (c : BuilderGenCtx)
    (h : self.into_builder_gen_ctx = .ok c) :
    ∃ fs flds, self.norm_struct.fields = .named fs ∧
      try_collect Field.from_syn_field fs = .ok flds ∧
      c = { fields := flds
            builder_ident := self.builder_ident
            builder_private_impl_ident := "__" ++ self.builder_ident ++ "PrivateImpl"
            builder_state_trait_ident := "__" ++ self.builder_ident ++ "State"
            receiver := none
            generics := { params := self.norm_struct.generics.params
                          where_clause := self.norm_struct.generics.where_clause }
            vis := self.norm_struct.vis
            start_func :=
              { ident := (self.params.start_fn.getD default).name.getD "builder"
                vis := (self.params.start_fn.getD default).vis
                attrs := [{ path := "doc"
                            value := "Use builder syntax to create an instance of [`"
                              ++ self.norm_struct.ident ++ "`]" }]
                generics := none }
            finish_func :=
              { ident := self.params.base.finish_fn.getD "build"
                unsafety := none
                asyncness := none
                body := { struct_ident := self.norm_struct.ident }
                output := self.struct_ty } } := by
  cases hf : self.norm_struct.fields with
  | named fs =>
    cases htc : try_collect Field.from_syn_field fs with
    | error e => simp [StructInputCtx.into_builder_gen_ctx, hf, htc] at h
    | ok flds =>
      refine ⟨fs, flds, rfl, htc, ?_⟩
      simp [StructInputCtx.into_builder_gen_ctx, hf, htc] at h
      exact h.symm
  | unnamed fs => simp [StructInputCtx.into_builder_gen_ctx, hf] at h
  | unit => simp [StructInputCtx.into_builder_gen_ctx, hf] at h

theorem norm_named_fields_noSelf (params : StructInputParams) (orig : ItemStruct)
    (fs : List SynField)
    (hf : (StructInputCtx.new params orig).norm_struct.fields = .named fs) :
    ∀ x ∈ fs, x.ty.containsSelf = false := by
  rw [new_norm_fields] at hf
  cases horig : orig.fields with
  | named gs =>
    rw [horig] at hf
    simp only [SynFields.substSelf, SynFields.named.injEq] at hf
    subst hf
    intro x hx
    obtain ⟨g, _, rfl⟩ := List.mem_map.1 hx
    exact Ty.substSelf_noSelf _ (struct_ty_noSelf params orig) g.ty
  | unnamed gs =>
    rw [horig] at hf
    simp [SynFields.substSelf] at hf
  | unit =>
    rw [horig] at hf
    simp [SynFields.substSelf] at hf

theorem norm_generics_noSelf (params : StructInputParams) (orig : ItemStruct) :
    Generics.containsSelf
      { params := (StructInputCtx.new params orig).norm_struct.generics.params
        where_clause :=
          (StructInputCtx.new params orig).norm_struct.generics.where_clause } =
      false := by
  rw [new_norm_generics]
  have hs := struct_ty_noSelf params orig
  simp only [Generics.containsSelf, SynGenerics.substSelf, Bool.or_eq_false_iff]
  constructor
  · simp only [List.any_map, List.any_eq_false, Function.comp]
    intro p _
    simp [GenericParam.substSelf_param_noSelf _ hs p]
  · cases hwc : orig.generics.where_clause with
    | none => simp
    | some ps =>
      simp only [Option.map_some, Option.getD_some, List.any_eq_false]
      intro pred hpred
      obtain ⟨q, _, rfl⟩ := List.mem_map.1 hpred
      obtain ⟨h1, h2⟩ := WherePred.substSelf_pred_noSelf _ hs q
      simp only [h1, Bool.false_or, List.any_eq_false]
      intro hany
      obtain ⟨t, ht, htc2⟩ := List.any_eq_true.1 hany
      rw [h2 t ht] at htc2
      simp at htc2

/-! ### The claims. -/

/-- C3: for every input struct whose fields are not named fields (a tuple
struct or a unit struct), `into_builder_gen_ctx` returns the
unsupported-fields error carrying the struct's span, and produces no
builder-generation context. -/
theorem into_builder_gen_ctx_rejects_non_named_fields
    (params : StructInputParams) (orig : ItemStruct)
    (h : (∃ fs, orig.fields = .unnamed fs) ∨ orig.fields = .unit) :
    (StructInputCtx.new params orig).into_builder_gen_ctx =
      .error { span := orig.span
               msg := "Only structs with named fields are supported" } := by
  rcases h with ⟨fs, hf⟩ | hf <;>
    simp [StructInputCtx.into_builder_gen_ctx, StructInputCtx.new,
      normalizeSelfTyStruct, SynFields.substSelf, hf]

/-- Witness for C3 at a concrete unit struct. -/
theorem into_builder_gen_ctx_rejects_non_named_fields_witness :
    ((∃ fs, exUnitStruct.fields = .unnamed fs) ∨ exUnitStruct.fields = .unit) ∧
    (StructInputCtx.new exParams exUnitStruct).into_builder_gen_ctx =
      .error { span := exUnitStruct.span
               msg := "Only structs with named fields are supported" } :=
  ⟨Or.inr rfl,
    into_builder_gen_ctx_rejects_non_named_fields exParams exUnitStruct (Or.inr rfl)⟩

/-- C4: a member without an explicit name makes `Field::from_syn_field`
fail with the unnamed-member error carrying the member's span; a named
member is converted by `Field::new` from its attributes, identifier and
declared type. -/
theorem from_syn_field_requires_name (f : SynField) :
    (f.ident = none →
      Field.from_syn_field f =
        .error { span := f.span
                 msg := "Only structs with named fields are supported. Please name all fields of the struct" }) ∧
    (∀ id, f.ident = some id →
      Field.from_syn_field f = Field.new f.attrs id f.ty) := by
  constructor
  · intro h
    simp [Field.from_syn_field, h]
  · intro id h
    simp [Field.from_syn_field, h]

/-- Witness for C4 at a concrete unnamed member. -/
theorem from_syn_field_requires_name_witness :
    exNoIdentField.ident = none ∧
    Field.from_syn_field exNoIdentField =
      .error { span := exNoIdentField.span
               msg := "Only structs with named fields are supported. Please name all fields of the struct" } :=
  ⟨rfl, (from_syn_field_requires_name exNoIdentField).1 rfl⟩

/-- C6: `StructLiteralBody::gen` emits exactly the struct literal obtained
by zipping each field's identifier with its resolved expression, one entry
per pair, in the order of the input list (the right-hand side is the
spec's wording, stated as `structLiteralOfPairs`). -/
theorem structLiteralBody_gen_is_zip (body : StructLiteralBody)
    (field_exprs : List FieldExpr) :
    body.gen field_exprs =
      structLiteralOfPairs body.struct_ident
        (field_exprs.map (fun fe => (fe.field.ident, fe.expr))) := by
  simp only [StructLiteralBody.gen, structLiteralOfPairs, List.map_map]
  rfl

/-- C7: naming is deterministic — the builder type name is the override
when given and `<DeclName>Builder` otherwise, the two hidden helper
identifiers are derived from the builder name as
`__<BuilderName>PrivateImpl` and `__<BuilderName>State`, and the start
method name is the configured name when given and `builder` otherwise. -/
theorem naming_derivation_deterministic
    (params : StructInputParams) (orig : ItemStruct) (c : BuilderGenCtx)
    (h : (StructInputCtx.new params orig).into_builder_gen_ctx = .ok c) :
    (∀ bt, params.base.builder_type = some bt → c.builder_ident = bt) ∧
    (params.base.builder_type = none → c.builder_ident = orig.ident ++ "Builder") ∧
    c.builder_private_impl_ident = "__" ++ c.builder_ident ++ "PrivateImpl" ∧
    c.builder_state_trait_ident = "__" ++ c.builder_ident ++ "State" ∧
    (∀ ip nm, params.start_fn = some ip → ip.name = some nm →
      c.start_func.ident = nm) ∧
    ((params.start_fn.getD default).name = none →
      c.start_func.ident = "builder") := by
  obtain ⟨fs, flds, hf, htc, rfl⟩ := into_builder_gen_ctx_ok_elim _ c h
  refine ⟨?_, ?_, rfl, rfl, ?_, ?_⟩
  · intro bt hbt
    simp [StructInputCtx.builder_ident, new_params, hbt]
  · intro hbt
    simp [StructInputCtx.builder_ident, new_params, hbt, new_norm_ident]
  · intro ip nm hip hnm
    simp [new_params, hip, hnm]
  · intro hnone
    simp [new_params, hnone]

/-- Witness for C7 at a concrete struct with no overrides. -/
theorem naming_derivation_deterministic_witness :
    (StructInputCtx.new exParams exSelfStruct).into_builder_gen_ctx = .ok exGenCtx ∧
    exParams.base.builder_type = none ∧
    exGenCtx.builder_ident = exSelfStruct.ident ++ "Builder" :=
  ⟨rfl, rfl,
    (naming_derivation_deterministic exParams exSelfStruct exGenCtx rfl).2.1 rfl⟩

/-- C8: `adapted_struct` is the original declaration with exactly the
attributes whose path is `builder` removed; name, visibility, generics,
fields, span and the other attributes are unchanged (in particular
self-references in generics and fields stay as written, since the
original, not the normalized, struct is re-emitted). -/
theorem adapted_struct_strips_only_builder_attrs
    (params : StructInputParams) (orig : ItemStruct) :
    ((StructInputCtx.new params orig).adapted_struct).ident = orig.ident ∧
    ((StructInputCtx.new params orig).adapted_struct).vis = orig.vis ∧
    ((StructInputCtx.new params orig).adapted_struct).generics = orig.generics ∧
    ((StructInputCtx.new params orig).adapted_struct).fields = orig.fields ∧
    ((StructInputCtx.new params orig).adapted_struct).span = orig.span ∧
    ((StructInputCtx.new params orig).adapted_struct).attrs =
      orig.attrs.filter (fun a => !(a.path == "builder")) :=
  ⟨rfl, rfl, rfl, rfl, rfl, rfl⟩

/-- C2: `StructInputCtx::new` first builds the fully-applied type from all
generic parameters in declaration order, then rewrites every `Self` in the
struct to it; the generic parameter list and the fields captured by
`into_builder_gen_ctx` are taken from the normalized struct, so neither
contains a self-reference. -/
theorem new_normalizes_self_before_capture
    (params : StructInputParams) (orig : ItemStruct) :
    (StructInputCtx.new params orig).struct_ty =
      Ty.path orig.ident (orig.generics.params.map generic_param_to_arg) ∧
    (StructInputCtx.new params orig).norm_struct =
      normalizeSelfTyStruct (StructInputCtx.new params orig).struct_ty orig ∧
    ∀ c, (StructInputCtx.new params orig).into_builder_gen_ctx = .ok c →
      c.generics.params =
        (StructInputCtx.new params orig).norm_struct.generics.params ∧
      c.generics.where_clause =
        (StructInputCtx.new params orig).norm_struct.generics.where_clause ∧
      c.generics.containsSelf = false ∧
      ∀ f ∈ c.fields, f.ty.containsSelf = false := by
  refine ⟨rfl, rfl, ?_⟩
  intro c h
  obtain ⟨fs, flds, hf, htc, rfl⟩ := into_builder_gen_ctx_ok_elim _ c h
  refine ⟨rfl, rfl, norm_generics_noSelf params orig, ?_⟩
  intro f hfmem
  obtain ⟨x, hx, hfx⟩ := try_collect_ok_mem _ _ _ htc f hfmem
  rw [(from_syn_field_ok_spec x f hfx).2.1]
  exact norm_named_fields_noSelf params orig fs hf x hx

/-- Witness for C2 at a concrete struct with `Self` in a field type, a
trait bound and the where-clause. -/
theorem new_normalizes_self_before_capture_witness :
    (StructInputCtx.new exParams exSelfStruct).into_builder_gen_ctx = .ok exGenCtx ∧
    (exGenCtx.generics.params =
        (StructInputCtx.new exParams exSelfStruct).norm_struct.generics.params ∧
      exGenCtx.generics.where_clause =
        (StructInputCtx.new exParams exSelfStruct).norm_struct.generics.where_clause ∧
      exGenCtx.generics.containsSelf = false ∧
      ∀ f ∈ exGenCtx.fields, f.ty.containsSelf = false) :=
  ⟨rfl,
    (new_normalizes_self_before_capture exParams exSelfStruct).2.2 exGenCtx rfl⟩

/-- C5: for every named-fields struct accepted by the adapter, the
produced context has no receiver, a finishing method that is neither
unsafe nor async returning the fully-applied struct type, and generics
holding the declaration's parameters (same names, kinds and order; values
are the Self-normalized ones) together with its where-clause. -/
theorem builder_gen_ctx_shape
    (params : StructInputParams) (orig : ItemStruct) (c : BuilderGenCtx)
    (h : (StructInputCtx.new params orig).into_builder_gen_ctx = .ok c) :
    c.receiver = none ∧
    c.finish_func.unsafety = none ∧
    c.finish_func.asyncness = none ∧
    c.finish_func.output = (StructInputCtx.new params orig).struct_ty ∧
    c.generics.params =
      orig.generics.params.map
        (GenericParam.substSelf (StructInputCtx.new params orig).struct_ty) ∧
    c.generics.params.map GenericParam.name =
      orig.generics.params.map GenericParam.name ∧
    c.generics.params.map GenericParam.kind =
      orig.generics.params.map GenericParam.kind ∧
    c.generics.where_clause =
      (StructInputCtx.new params orig).norm_struct.generics.where_clause := by
  obtain ⟨fs, flds, hf, htc, rfl⟩ := into_builder_gen_ctx_ok_elim _ c h
  refine ⟨rfl, rfl, rfl, rfl, rfl, ?_, ?_, rfl⟩
  · show ((StructInputCtx.new params orig).norm_struct.generics.params).map
        GenericParam.name = _
    simp [new_norm_generics, SynGenerics.substSelf, List.map_map, Function.comp,
      GenericParam.substSelf_name]
  · show ((StructInputCtx.new params orig).norm_struct.generics.params).map
        GenericParam.kind = _
    simp [new_norm_generics, SynGenerics.substSelf, List.map_map, Function.comp,
      GenericParam.substSelf_kind]

/-- Witness for C5 at a concrete struct with all three parameter kinds. -/
theorem builder_gen_ctx_shape_witness :
    (StructInputCtx.new exParams exSelfStruct).into_builder_gen_ctx = .ok exGenCtx ∧
    exGenCtx.receiver = none ∧
    exGenCtx.finish_func.unsafety = none ∧
    exGenCtx.finish_func.asyncness = none ∧
    exGenCtx.finish_func.output = (StructInputCtx.new exParams exSelfStruct).struct_ty :=
  ⟨rfl,
    (builder_gen_ctx_shape exParams exSelfStruct exGenCtx rfl).1,
    (builder_gen_ctx_shape exParams exSelfStruct exGenCtx rfl).2.1,
    (builder_gen_ctx_shape exParams exSelfStruct exGenCtx rfl).2.2.1,
    (builder_gen_ctx_shape exParams exSelfStruct exGenCtx rfl).2.2.2.1⟩

/-- C9: the adapter is fail-fast and all-or-nothing — if any field
conversion fails, `into_builder_gen_ctx` returns the first such error
(`findSome?` of the field errors, in order) and no context; a context is
produced only when every field converts. -/
theorem into_builder_gen_ctx_fail_fast
    (params : StructInputParams) (orig : ItemStruct) (fs : List SynField)
    (hf : (StructInputCtx.new params orig).norm_struct.fields = .named fs) :
    (∀ e, fs.findSome? (errOf Field.from_syn_field) = some e →
      (StructInputCtx.new params orig).into_builder_gen_ctx = .error e) ∧
    (∀ c, (StructInputCtx.new params orig).into_builder_gen_ctx = .ok c →
      fs.findSome? (errOf Field.from_syn_field) = none ∧
      ∀ x ∈ fs, ∃ y, Field.from_syn_field x = .ok y) := by
  constructor
  · intro e he
    have htc : try_collect Field.from_syn_field fs = .error e :=
      (try_collect_error_iff _ _ _).2 he
    simp [StructInputCtx.into_builder_gen_ctx, hf, htc]
  · intro c h
    obtain ⟨fs2, flds, hf2, htc, rfl⟩ := into_builder_gen_ctx_ok_elim _ c h
    rw [hf] at hf2
    obtain rfl := SynFields.named.inj hf2
    constructor
    · cases hfind : fs.findSome? (errOf Field.from_syn_field) with
      | none => rfl
      | some e =>
        have := (try_collect_error_iff Field.from_syn_field fs e).2 hfind
        rw [htc] at this
        simp at this
    · exact try_collect_ok_mem_left _ _ _ htc

/-- Witness for C9 at a concrete struct whose second and third members
lack a name: the reported error is the second member's (the first failing
one), carrying its span. -/
theorem into_builder_gen_ctx_fail_fast_witness :
    (StructInputCtx.new exParams exBadStruct).norm_struct.fields = .named exBadFields ∧
    exBadFields.findSome? (errOf Field.from_syn_field) =
      some { span := 7
             msg := "Only structs with named fields are supported. Please name all fields of the struct" } ∧
    (StructInputCtx.new exParams exBadStruct).into_builder_gen_ctx =
      .error { span := 7
               msg := "Only structs with named fields are supported. Please name all fields of the struct" } :=
  ⟨rfl, by decide,
    (into_builder_gen_ctx_fail_fast exParams exBadStruct exBadFields rfl).1 _ (by decide)⟩

/-- C10: the fields list of the produced context has exactly one Field per
declared field, in declaration order, each carrying the declared name,
type and attributes. -/
theorem builder_fields_one_per_declared_in_order
    (params : StructInputParams) (orig : ItemStruct) (fs : List SynField)
    (c : BuilderGenCtx)
    (hf : (StructInputCtx.new params orig).norm_struct.fields = .named fs)
    (h : (StructInputCtx.new params orig).into_builder_gen_ctx = .ok c) :
    c.fields.length = fs.length ∧
    List.Forall₂
      (fun x y => x.ident = some y.ident ∧ y.ty = x.ty ∧ y.attrs = x.attrs)
      fs c.fields := by
  obtain ⟨fs2, flds, hf2, htc, rfl⟩ := into_builder_gen_ctx_ok_elim _ c h
  rw [hf] at hf2
  obtain rfl := SynFields.named.inj hf2
  have hfa := (try_collect_ok_iff Field.from_syn_field fs flds).1 htc
  constructor
  · exact hfa.length_eq.symm
  · exact List.Forall₂.imp (fun x y hxy => from_syn_field_ok_spec x y hxy) hfa

/-- C1: calling the start method, then every setter in any order, then
the finishing method yields the value obtained by direct construction
(generic builder model: any permutation of the field indices); and the
concrete scenario
`Sut::builder().a("a").b("b").c(42).d("d").e([0;3]).build()` yields fields
exactly `a="a", b="b", c=42, d="d", e=[0,0,0]`. -/
theorem builder_any_order_roundtrip :
    (∀ (n : Nat) (V : Type) (v : Fin n → V) (order : List (Fin n)),
      order.Perm (List.finRange n) →
      (BuilderState.runSetters (BuilderState.start n V)
          (order.map (fun i => (i, v i)))).finish = some v) ∧
    ((((((Sut.builder Nat String 3).setA "a").setB "b").setC 42).setD "d").setE
        (List.replicate 3 0)).build =
      { a := "a", b := "b", c := 42, d := "d", e := [0, 0, 0] } := by
  constructor
  · intro n V v order hperm
    have hmem : ∀ i : Fin n, i ∈ order := fun i =>
      hperm.mem_iff.2 (List.mem_finRange i)
    have hslots : ∀ i,
        (BuilderState.runSetters (BuilderState.start n V)
          (order.map (fun j => (j, v j)))).slots i = some (v i) := by
      intro i
      rw [runSetters_map_slots]
      simp [hmem i]
    unfold BuilderState.finish
    have hall : ∀ i,
        ((BuilderState.runSetters (BuilderState.start n V)
          (order.map (fun j => (j, v j)))).slots i).isSome := by
      intro i
      rw [hslots i]
      rfl
    rw [dif_pos hall]
    congr 1
    funext i
    exact Option.get_of_mem (hall i) (Option.mem_def.mpr (hslots i))
  · rfl

/-- Witness for C1: a two-field builder driven in reverse order. -/
theorem builder_any_order_roundtrip_witness :
    ([(1 : Fin 2), 0]).Perm (List.finRange 2) ∧
    (BuilderState.runSetters (BuilderState.start 2 Nat)
        (([(1 : Fin 2), 0]).map (fun i => (i, (fun j : Fin 2 => j.val + 5) i)))).finish =
      some (fun j : Fin 2 => j.val + 5) :=
  ⟨by decide,
    builder_any_order_roundtrip.1 2 Nat (fun j => j.val + 5) [1, 0] (by decide)⟩

/-- Witness for C10 at a concrete two-field struct. -/
theorem builder_fields_one_per_declared_in_order_witness :
    (StructInputCtx.new exParams exSelfStruct).norm_struct.fields =
      .named exNormFields ∧
    (StructInputCtx.new exParams exSelfStruct).into_builder_gen_ctx = .ok exGenCtx ∧
    exGenCtx.fields.length = exNormFields.length :=
  ⟨rfl, rfl,
    (builder_fields_one_per_declared_in_order exParams exSelfStruct exNormFields
      exGenCtx rfl rfl).1⟩

end BonDemo
